import Mathlib

/-!
Verification of the repository-data aggregation pipeline.

Shallow embedding of `src/server/services/github.ts` (paginated collectors and
accurate-count estimators), `src/server/storage.ts` (the in-memory analysis
store), and the graph-mirror call described by the spec. Upstream HTTP calls
are modelled as explicit fallible results (`Except Unit`); JavaScript numbers
in integer positions are modelled as `Int`, and the one floating-point ratio
computation (`getAccurateOpenIssuesCount`) as `ℚ` with `round` standing for
`Math.round`. Items whose contents the service never inspects are modelled as
`Unit`; issue items keep the one field the service reads, the presence of the
`pull_request` marker.
-/

/-- One item of the upstream issues listing. The only field the service
inspects is whether the `pull_request` marker is present (`issue.pull_request`
in the source). -/
structure IssueItem where
  isPullRequest : Bool
deriving DecidableEq

/-- An upstream listing response: the page items (`response.data`) together
with the last-page number parsed from the `Link` header
(`linkHeader.match(/page=(\d+)>; rel="last"/)` in the source); `none` when the
header is absent or carries no `rel="last"` entry. -/
structure ListResp (α : Type) where
  data : List α
  linkLast : Option Nat
deriving DecidableEq

/-- The shared pagination loop of `getCommits`, `getIssues` and
`getContributors` (src/server/services/github.ts): starting at `page` with
`fuel` pages of budget left, fetch a page, append its items to `acc`, stop
when a page returns fewer than `perPage` items, and propagate a failed fetch
(in the source, to the try/catch wrapped around the whole loop). -/
def collectLoop {α : Type} (fetch : Nat → Except Unit (List α)) (perPage : Nat) :
    Nat → Nat → List α → Except Unit (List α)
  | 0, _, acc => Except.ok acc
  | fuel + 1, page, acc =>
    match fetch page with
    | Except.error e => Except.error e
    | Except.ok data =>
      if data.length < perPage then Except.ok (acc ++ data)
      else collectLoop fetch perPage fuel (page + 1) (acc ++ data)

/-- `getCommits` (github.ts lines 88-118): up to 3 pages of 100; the try/catch
around the whole loop returns `[]` on any page failure. -/
def getCommits {α : Type} (fetch : Nat → Except Unit (List α)) : List α :=
  match collectLoop fetch 100 3 1 [] with
  | Except.ok l => l
  | Except.error _ => []

/-- `getIssues` (github.ts lines 135-166): up to 5 pages of 100 of the mixed
issue/pull-request listing; no filtering of the `pull_request` marker happens
here; `[]` on any page failure. -/
def getIssues (fetch : Nat → Except Unit (List IssueItem)) : List IssueItem :=
  match collectLoop fetch 100 5 1 [] with
  | Except.ok l => l
  | Except.error _ => []

/-- `getContributors` (github.ts lines 182-212): up to 5 pages of 100; `[]` on
any page failure. -/
def getContributors {α : Type} (fetch : Nat → Except Unit (List α)) : List α :=
  match collectLoop fetch 100 5 1 [] with
  | Except.ok l => l
  | Except.error _ => []

/-- `getPullRequests` (github.ts lines 120-133): one request of up to 100
items; `[]` on failure. -/
def getPullRequests {α : Type} (fetch : Except Unit (List α)) : List α :=
  match fetch with
  | Except.ok l => l
  | Except.error _ => []

/-- `getReleases` (github.ts lines 168-180): one request of up to 50 items;
`[]` on failure. -/
def getReleases {α : Type} (fetch : Except Unit (List α)) : List α :=
  match fetch with
  | Except.ok l => l
  | Except.error _ => []

/-- The two upstream requests `getAccurateCommitCount` can make: the page-1
listing (with its `Link` header) and the direct fetch of a given last page. -/
structure CommitCountEnv where
  firstPage : Except Unit (ListResp Unit)
  lastPageFetch : Nat → Except Unit (List Unit)

/-- `getAccurateCommitCount` (github.ts lines 251-289). With a last-page
number over 50 it estimates `lastPage * 95`; at or below 50 it fetches the
last page and returns `(lastPage-1)*100 + lastPageItemCount`; with no
last-page signal it returns the page-1 item count. A failure of either
request reaches the single surrounding try/catch, which returns 0. -/
def getAccurateCommitCount (env : CommitCountEnv) : Int :=
  match env.firstPage with
  | Except.error _ => 0
  | Except.ok resp =>
    match resp.linkLast with
    | some lastPage =>
      if 50 < lastPage then (lastPage : Int) * 95
      else
        match env.lastPageFetch lastPage with
        | Except.ok l => ((lastPage : Int) - 1) * 100 + l.length
        | Except.error _ => 0
    | none => (resp.data.length : Int)

/-- The two upstream requests of `getAccurateContributorCount`. -/
structure ContributorCountEnv where
  firstPage : Except Unit (ListResp Unit)
  lastPageFetch : Nat → Except Unit (List Unit)

/-- `getAccurateContributorCount` (github.ts lines 291-337). Over 10 pages it
estimates `(lastPage-1)*80 + 50`; otherwise it fetches the last page for an
exact count, degrading to `lastPage * 90` if that inner request fails; with no
last-page signal it returns the page-1 item count; 0 if page 1 fails. -/
def getAccurateContributorCount (env : ContributorCountEnv) : Int :=
  match env.firstPage with
  | Except.error _ => 0
  | Except.ok resp =>
    match resp.linkLast with
    | some lastPage =>
      if 10 < lastPage then ((lastPage : Int) - 1) * 80 + 50
      else
        match env.lastPageFetch lastPage with
        | Except.ok l => ((lastPage : Int) - 1) * 100 + l.length
        | Except.error _ => (lastPage : Int) * 90
    | none => (resp.data.length : Int)

/-- The two upstream requests of `getAccurateIssueCount` (state "all"). -/
structure IssueCountEnv where
  firstPage : Except Unit (ListResp IssueItem)
  lastPageFetch : Nat → Except Unit (List IssueItem)

/-- `getAccurateIssueCount` (github.ts lines 339-385). Counts raw listing
items of the mixed issue/pull-request listing; it never filters the
`pull_request` marker. Over 20 pages it estimates `lastPage * 85`; otherwise
it fetches the last page for `(lastPage-1)*100 + lastPageItemCount`, degrading
to `lastPage * 90` if that inner request fails; with no last-page signal it
returns the raw page-1 item count; 0 if page 1 fails. -/
def getAccurateIssueCount (env : IssueCountEnv) : Int :=
  match env.firstPage with
  | Except.error _ => 0
  | Except.ok resp =>
    match resp.linkLast with
    | some lastPage =>
      if 20 < lastPage then (lastPage : Int) * 85
      else
        match env.lastPageFetch lastPage with
        | Except.ok l => ((lastPage : Int) - 1) * 100 + l.length
        | Except.error _ => (lastPage : Int) * 90
    | none => (resp.data.length : Int)

/-- The upstream requests of `getAccurateOpenIssuesCount` (state "open"):
page 1 with its `Link` header, then direct fetches of pages 2 and on. -/
structure OpenIssuesEnv where
  firstPage : Except Unit (ListResp IssueItem)
  pageFetch : Nat → Except Unit (List IssueItem)

/-- Number of items of a page that do not carry the `pull_request` marker
(`response.data.filter(issue => !issue.pull_request).length`). -/
def countNonPR (l : List IssueItem) : Nat :=
  (l.filter (fun i => !i.isPullRequest)).length

/-- The page loop of `getAccurateOpenIssuesCount` (github.ts lines 416-433):
`for (let page = 2; page <= Math.min(lastPage, 10); page++)` adding each
page's filtered count; on a page failure it extrapolates the remaining pages
from the ratio accumulated so far (`Math.round` modelled as `round` on `ℚ`)
and stops. -/
def openIssuesLoop (fetch : Nat → Except Unit (List IssueItem)) (lastPage : Nat) :
    Nat → Nat → Int → Int
  | 0, _, total => total
  | fuel + 1, page, total =>
    if page ≤ min lastPage 10 then
      match fetch page with
      | Except.ok data => openIssuesLoop fetch lastPage fuel (page + 1) (total + countNonPR data)
      | Except.error _ =>
        let ratio : ℚ := (total : ℚ) / (((page : ℚ) - 1) * 100)
        total + round (((lastPage : ℚ) - (page : ℚ) + 1) * 100 * ratio)
    else total

/-- `getAccurateOpenIssuesCount` (github.ts lines 387-444). The only counting
path that filters the `pull_request` marker. Over 10 pages it estimates
`Math.round(lastPage * 100 * issueRatio * 0.9)` from the page-1 filtered
ratio; otherwise it sums the filtered counts of pages 1 through
`min(lastPage, 10)`; with no last-page signal it returns the page-1 filtered
count; 0 if page 1 fails. -/
def getAccurateOpenIssuesCount (env : OpenIssuesEnv) : Int :=
  match env.firstPage with
  | Except.error _ => 0
  | Except.ok resp =>
    let actual := resp.data.filter (fun i => !i.isPullRequest)
    match resp.linkLast with
    | some lastPage =>
      if 10 < lastPage then
        let ratio : ℚ := (actual.length : ℚ) / (resp.data.length : ℚ)
        round ((lastPage : ℚ) * 100 * ratio * (9 / 10))
      else
        openIssuesLoop env.pageFetch lastPage 9 2 (actual.length : Int)
    | none => (actual.length : Int)

/-- The repository metadata fields `getRepositoryTotals` reads from
`repos.get` (`stargazers_count`, `forks_count`, `watchers_count`). -/
structure RepoMeta where
  stargazers_count : Int
  forks_count : Int
  watchers_count : Int
deriving DecidableEq

/-- The upstream surface `getRepositoryTotals` touches: the metadata request
(wrapped by `.catch(() => ({data: {}}))` in the source) and the four count
estimators' requests. -/
structure TotalsEnv where
  repoMeta : Except Unit RepoMeta
  commitEnv : CommitCountEnv
  contributorEnv : ContributorCountEnv
  issueEnv : IssueCountEnv
  openEnv : OpenIssuesEnv

/-- The record `getRepositoryTotals` returns. -/
structure Totals where
  totalCommits : Int
  totalContributors : Int
  totalIssues : Int
  openIssues : Int
  stars : Int
  forks : Int
  watchers : Int
deriving DecidableEq

/-- `getRepositoryTotals` (github.ts lines 214-249): the four counts come from
the four estimators (each of which catches its own failures), and the
metadata fields default to 0 when the metadata request fails (the `.catch`
yields an empty object, whose missing fields read as `undefined || 0`). Every
sub-call catches its own failures, so the function's own try/catch (which
would return the all-zero record) has nothing left to catch and the body
always completes. -/
def getRepositoryTotals (env : TotalsEnv) : Totals :=
  { totalCommits := getAccurateCommitCount env.commitEnv
    totalContributors := getAccurateContributorCount env.contributorEnv
    totalIssues := getAccurateIssueCount env.issueEnv
    openIssues := getAccurateOpenIssuesCount env.openEnv
    stars := match env.repoMeta with
      | Except.ok m => m.stargazers_count
      | Except.error _ => 0
    forks := match env.repoMeta with
      | Except.ok m => m.forks_count
      | Except.error _ => 0
    watchers := match env.repoMeta with
      | Except.ok m => m.watchers_count
      | Except.error _ => 0 }

/-- The upstream surface of `getRepositoryDetails`: the direct `repos.get`
call (the one sub-task with no catch of its own) plus the five collectors'
fetches and the totals environment. -/
structure DetailsEnv where
  repoGet : Except Unit RepoMeta
  commitsFetch : Nat → Except Unit (List Unit)
  pullsFetch : Except Unit (List Unit)
  issuesFetch : Nat → Except Unit (List IssueItem)
  releasesFetch : Except Unit (List Unit)
  contributorsFetch : Nat → Except Unit (List Unit)
  totalsEnv : TotalsEnv

/-- The aggregate document `getRepositoryDetails` returns. -/
structure Details where
  repository : RepoMeta
  commits : List Unit
  pullRequests : List Unit
  issues : List IssueItem
  releases : List Unit
  contributors : List Unit
  totals : Totals
deriving DecidableEq

/-- `getRepositoryDetails` (github.ts lines 61-86): `Promise.all` over the
metadata request, the five collectors and the totals. The collectors and the
totals catch all their failures and always resolve, so the only rejection
`Promise.all` can see is the bare `repos.get`; that one reaches the catch,
which rethrows (modelled as `Except.error`). -/
def getRepositoryDetails (env : DetailsEnv) : Except Unit Details :=
  match env.repoGet with
  | Except.error _ => Except.error ()
  | Except.ok meta =>
    Except.ok
      { repository := meta
        commits := getCommits env.commitsFetch
        pullRequests := getPullRequests env.pullsFetch
        issues := getIssues env.issuesFetch
        releases := getReleases env.releasesFetch
        contributors := getContributors env.contributorsFetch
        totals := getRepositoryTotals env.totalsEnv }

/-- The `codeMetrics` object the select route stores alongside the arrays
(src/server uses plain numbers for all of these). -/
structure CodeMetrics where
  totalCommits : Int
  totalPRs : Int
  totalIssues : Int
  totalReleases : Int
  totalContributors : Int
  openIssues : Int
deriving DecidableEq

/-- `RepositoryAnalysis` as `storage.ts` stores it: the store-assigned record
`id`, the owning `repositoryId`, the five collected arrays and the metrics
(each nullable, per the schema), and the `lastUpdated` timestamp (modelled as
`Nat`). Array contents are opaque to the store, modelled as `List Nat`. -/
structure RepositoryAnalysis where
  id : String
  repositoryId : Option String
  commits : Option (List Nat)
  pullRequests : Option (List Nat)
  issues : Option (List Nat)
  releases : Option (List Nat)
  contributors : Option (List Nat)
  codeMetrics : Option CodeMetrics
  lastUpdated : Nat
deriving DecidableEq

/-- `InsertRepositoryAnalysis`: what `createRepositoryAnalysis` receives (no
`id`, no `lastUpdated`; the store assigns both). -/
structure InsertRepositoryAnalysis where
  repositoryId : Option String
  commits : Option (List Nat)
  pullRequests : Option (List Nat)
  issues : Option (List Nat)
  releases : Option (List Nat)
  contributors : Option (List Nat)
  codeMetrics : Option CodeMetrics
deriving DecidableEq

/-- `Partial<RepositoryAnalysis>`: every field may be absent (`none`) or
present; a present field overwrites the stored one in the object-spread merge
`{...existing, ...updates}`. -/
structure PartialRepositoryAnalysis where
  id : Option String
  repositoryId : Option (Option String)
  commits : Option (Option (List Nat))
  pullRequests : Option (Option (List Nat))
  issues : Option (Option (List Nat))
  releases : Option (Option (List Nat))
  contributors : Option (Option (List Nat))
  codeMetrics : Option (Option CodeMetrics)
  lastUpdated : Option Nat
deriving DecidableEq

/-- The spread merge `{ ...existing, ...updates, lastUpdated: new Date() }` of
`updateRepositoryAnalysis` (storage.ts line 221): a present update field wins,
an absent one keeps the stored value, and `lastUpdated` is set last so it is
always the fresh timestamp. -/
def mergeAnalysis (existing : RepositoryAnalysis) (u : PartialRepositoryAnalysis)
    (now : Nat) : RepositoryAnalysis :=
  { id := u.id.getD existing.id
    repositoryId := u.repositoryId.getD existing.repositoryId
    commits := u.commits.getD existing.commits
    pullRequests := u.pullRequests.getD existing.pullRequests
    issues := u.issues.getD existing.issues
    releases := u.releases.getD existing.releases
    contributors := u.contributors.getD existing.contributors
    codeMetrics := u.codeMetrics.getD existing.codeMetrics
    lastUpdated := now }

/-- The `repositoryAnalyses` member of `MemStorage`: a JavaScript `Map` keyed
by record id, modelled as an insertion-ordered association list with unique
keys. -/
abbrev AnalysisStore := List (String × RepositoryAnalysis)

/-- JavaScript `Map.set(k, v)`: overwrite the value of an existing key in
place (position kept), append a new key at the end. -/
def mapSet : AnalysisStore → String → RepositoryAnalysis → AnalysisStore
  | [], k, v => [(k, v)]
  | (k0, v0) :: rest, k, v =>
    if k0 = k then (k, v) :: rest else (k0, v0) :: mapSet rest k v

/-- The keys of the store, in insertion order. -/
def storeKeys (s : AnalysisStore) : List String := s.map Prod.fst

/-- `getRepositoryAnalysis` (storage.ts lines 195-197):
`Array.from(values()).find(a => a.repositoryId === repositoryId)` — the first
stored record, in insertion order, owned by the repository. -/
def getRepositoryAnalysis : AnalysisStore → String → Option RepositoryAnalysis
  | [], _ => none
  | (_, a) :: rest, repositoryId =>
    if a.repositoryId = some repositoryId then some a
    else getRepositoryAnalysis rest repositoryId

/-- `createRepositoryAnalysis` (storage.ts lines 199-215): build the record
from the insert payload (the `|| null` coalescing is the identity on the
`Option`-modelled fields), assign the fresh `randomUUID()` id (passed
explicitly here) and the current time, and `set` it under the new id. -/
def createRepositoryAnalysis (s : AnalysisStore) (ins : InsertRepositoryAnalysis)
    (freshId : String) (now : Nat) : RepositoryAnalysis × AnalysisStore :=
  let analysis : RepositoryAnalysis :=
    { id := freshId
      repositoryId := ins.repositoryId
      commits := ins.commits
      pullRequests := ins.pullRequests
      issues := ins.issues
      releases := ins.releases
      contributors := ins.contributors
      codeMetrics := ins.codeMetrics
      lastUpdated := now }
  (analysis, mapSet s freshId analysis)

/-- `updateRepositoryAnalysis` (storage.ts lines 217-224): look the record up
by repository id; absent means `undefined` and no write; present means spread
merge and `set` back under the existing record's id. -/
def updateRepositoryAnalysis (s : AnalysisStore) (repositoryId : String)
    (updates : PartialRepositoryAnalysis) (now : Nat) :
    Option RepositoryAnalysis × AnalysisStore :=
  match getRepositoryAnalysis s repositoryId with
  | none => (none, s)
  | some existing =>
    let updated := mergeAnalysis existing updates now
    (some updated, mapSet s existing.id updated)

/-- An `AggregateAnalysis` payload as the select route passes it to the store:
the five collected arrays plus the metrics object, all present. -/
structure AnalysisPayload where
  commits : List Nat
  pullRequests : List Nat
  issues : List Nat
  releases : List Nat
  contributors : List Nat
  codeMetrics : CodeMetrics
deriving DecidableEq

/-- The update object the select route passes to `updateRepositoryAnalysis`:
every content field present, `id` and `repositoryId` untouched. -/
def payloadUpdates (p : AnalysisPayload) : PartialRepositoryAnalysis :=
  { id := none
    repositoryId := none
    commits := some (some p.commits)
    pullRequests := some (some p.pullRequests)
    issues := some (some p.issues)
    releases := some (some p.releases)
    contributors := some (some p.contributors)
    codeMetrics := some (some p.codeMetrics)
    lastUpdated := none }

/-- The insert object the select route passes to `createRepositoryAnalysis`. -/
def payloadInsert (repositoryId : String) (p : AnalysisPayload) :
    InsertRepositoryAnalysis :=
  { repositoryId := some repositoryId
    commits := some p.commits
    pullRequests := some p.pullRequests
    issues := some p.issues
    releases := some p.releases
    contributors := some p.contributors
    codeMetrics := some p.codeMetrics }

/-- The store-or-update step of the select route (routes, "Store or update
analysis"): update when a record for the repository exists, create otherwise.
This is the `put(repositoryId, AggregateAnalysis)` the spec describes. -/
def putAnalysis (s : AnalysisStore) (repositoryId : String) (p : AnalysisPayload)
    (freshId : String) (now : Nat) : Option RepositoryAnalysis × AnalysisStore :=
  match getRepositoryAnalysis s repositoryId with
  | some _ => updateRepositoryAnalysis s repositoryId (payloadUpdates p) now
  | none =>
    let created := createRepositoryAnalysis s (payloadInsert repositoryId p) freshId now
    (some created.1, created.2)

/-- Store well-formedness, maintained by the `Map`-backed store: keys are
unique (a JavaScript `Map` cannot repeat a key) and every stored record's
`id` field equals its key (both `create` and `update` write under the
record's own id). -/
def WFStore (s : AnalysisStore) : Prop :=
  (storeKeys s).Nodup ∧ ∀ p ∈ s, (p.2).id = p.1

instance (s : AnalysisStore) : Decidable (WFStore s) := by
  unfold WFStore
  infer_instance

/-- `createRepositoryGraph` (src/server/services/neo4j.ts lines 46-404): runs
the graph write inside its own try/catch, which logs the error and rethrows
it (`throw error`), so on the outcome level the write's result passes through
the service unchanged. -/
def createRepositoryGraph (write : Except Unit Unit) : Except Unit Unit := write

/-- Modelled from the spec: no caller of `createRepositoryGraph` exists under
the source files (the select routes present never invoke the graph mirror),
so the graph-mirror step of `selectRepository` is modelled from the spec's
words: the aggregate is written to the store, then forwarded best-effort to
the mirror, and "any exception from this call is caught, logged, and
swallowed — it must never fail the overall aggregation"; the route then
responds with the repository and the stored analysis. -/
def selectRepository (s : AnalysisStore) (repositoryId : String) (p : AnalysisPayload)
    (freshId : String) (now : Nat) (mirrorWrite : Except Unit Unit) :
    Option RepositoryAnalysis × AnalysisStore :=
  let put := putAnalysis s repositoryId p freshId now
  match createRepositoryGraph mirrorWrite with
  | Except.ok _ => put
  | Except.error _ => put

/-- One unfolding step of the pagination loop. -/
theorem collectLoop_succ {α : Type} (fetch : Nat → Except Unit (List α))
    (perPage fuel page : Nat) (acc : List α) :
    collectLoop fetch perPage (fuel + 1) page acc =
      match fetch page with
      | Except.error e => Except.error e
      | Except.ok data =>
        if data.length < perPage then Except.ok (acc ++ data)
        else collectLoop fetch perPage fuel (page + 1) (acc ++ data) := rfl

/-- When every successful page holds at most `perPage` items, a completed
pagination loop adds at most `fuel * perPage` items to the accumulator. -/
theorem collectLoop_length_le {α : Type} (fetch : Nat → Except Unit (List α)) (perPage : Nat)
    (hcap : ∀ p l, fetch p = Except.ok l → l.length ≤ perPage) :
    ∀ (fuel page : Nat) (acc out : List α),
      collectLoop fetch perPage fuel page acc = Except.ok out →
      out.length ≤ acc.length + fuel * perPage := by
  intro fuel
  induction fuel with
  | zero =>
    intro page acc out h
    simp only [collectLoop] at h
    injection h with h
    subst h
    simp
  | succ n ih =>
    intro page acc out h
    simp only [collectLoop] at h
    cases hf : fetch page with
    | error e => rw [hf] at h; simp at h
    | ok data =>
      rw [hf] at h
      dsimp only at h
      by_cases hlen : data.length < perPage
      · rw [if_pos hlen] at h
        injection h with h
        subst h
        have hc := hcap page data hf
        have hm : (n + 1) * perPage = n * perPage + perPage := by ring
        simp only [List.length_append]
        omega
      · rw [if_neg hlen] at h
        have hout := ih (page + 1) (acc ++ data) out h
        have hc := hcap page data hf
        have hm : (n + 1) * perPage = n * perPage + perPage := by ring
        simp only [List.length_append] at hout
        omega

/-- C7: for every repository and every upstream response in which each page
honours the requested page size (`per_page = 100` for the paginated listings,
50 for the single releases request), the collected sequences respect the
fixed per-type caps: commits at most 300, issues at most 500, contributors at
most 500, releases at most 50. -/
theorem collector_caps (cf : Nat → Except Unit (List Unit))
    (isf : Nat → Except Unit (List IssueItem))
    (ctf : Nat → Except Unit (List Unit)) (rf : Except Unit (List Unit))
    (hc : ∀ p l, cf p = Except.ok l → l.length ≤ 100)
    (hi : ∀ p l, isf p = Except.ok l → l.length ≤ 100)
    (hct : ∀ p l, ctf p = Except.ok l → l.length ≤ 100)
    (hr : ∀ l, rf = Except.ok l → l.length ≤ 50) :
    (getCommits cf).length ≤ 300 ∧ (getIssues isf).length ≤ 500 ∧
      (getContributors ctf).length ≤ 500 ∧ (getReleases rf).length ≤ 50 := by
  refine ⟨?_, ?_, ?_, ?_⟩
  · unfold getCommits
    cases hres : collectLoop cf 100 3 1 [] with
    | error e => simp
    | ok l =>
      have := collectLoop_length_le cf 100 hc 3 1 [] l hres
      simpa using this
  · unfold getIssues
    cases hres : collectLoop isf 100 5 1 [] with
    | error e => simp
    | ok l =>
      have := collectLoop_length_le isf 100 hi 5 1 [] l hres
      simpa using this
  · unfold getContributors
    cases hres : collectLoop ctf 100 5 1 [] with
    | error e => simp
    | ok l =>
      have := collectLoop_length_le ctf 100 hct 5 1 [] l hres
      simpa using this
  · unfold getReleases
    cases hres : rf with
    | error e => simp
    | ok l => simpa using hr l hres

/-- A fetch answering every page with a full page of 100 unit items. -/
def fullPageFetch : Nat → Except Unit (List Unit) :=
  fun _ => Except.ok (List.replicate 100 ())

/-- A fetch answering every page with a full page of 100 plain issues. -/
def fullIssuePageFetch : Nat → Except Unit (List IssueItem) :=
  fun _ => Except.ok (List.replicate 100 { isPullRequest := false })

/-- A releases response of exactly 50 items. -/
def fullReleasesResp : Except Unit (List Unit) :=
  Except.ok (List.replicate 50 ())

/-- Witness for C7 at an upstream that always answers with full pages. -/
theorem collector_caps_witness :
    (getCommits fullPageFetch).length ≤ 300 ∧
      (getIssues fullIssuePageFetch).length ≤ 500 ∧
      (getContributors fullPageFetch).length ≤ 500 ∧
      (getReleases fullReleasesResp).length ≤ 50 :=
  collector_caps fullPageFetch fullIssuePageFetch fullPageFetch fullReleasesResp
    (by intro p l h; simp only [fullPageFetch] at h; injection h with h; subst h; decide)
    (by intro p l h; simp only [fullIssuePageFetch] at h; injection h with h; subst h; decide)
    (by intro p l h; simp only [fullPageFetch] at h; injection h with h; subst h; decide)
    (by intro l h; simp only [fullReleasesResp] at h; injection h with h; subst h; decide)

/-- C2: when the page-1 `Link` header discloses a last page `L` at or below
the small-repo threshold of 50 and the direct fetch of page `L` succeeds, the
commit-count estimator returns exactly `(L-1)*100` plus the item count of
page `L`. -/
theorem commitCount_small_repo_last_page_exact (env : CommitCountEnv)
    (d : List Unit) (L : Nat) (l : List Unit)
    (h1 : env.firstPage = Except.ok { data := d, linkLast := some L })
    (hL : L ≤ 50) (h2 : env.lastPageFetch L = Except.ok l) :
    getAccurateCommitCount env = ((L : Int) - 1) * 100 + l.length := by
  simp only [getAccurateCommitCount, h1, h2]
  rw [if_neg (by omega)]

/-- The upstream of a repository with exactly 150 commits at page size 100:
page 1 is full, the `Link` header points at last page 2, and page 2 holds the
remaining 50 items. -/
def commitEnv150 : CommitCountEnv :=
  { firstPage := Except.ok { data := List.replicate 100 (), linkLast := some 2 }
    lastPageFetch := fun _ => Except.ok (List.replicate 50 ()) }

/-- Witness for C2: the 150-commit scenario yields exactly 150. -/
theorem commitCount_small_repo_last_page_exact_witness :
    getAccurateCommitCount commitEnv150 = 150 := by
  have h := commitCount_small_repo_last_page_exact commitEnv150
    (List.replicate 100 ()) 2 (List.replicate 50 ()) rfl (by norm_num) rfl
  rw [h]
  decide

/-- An upstream whose commit page 1 is full and whose page-2 fetch throws. -/
def commitsFetchFail2 : Nat → Except Unit (List Unit) :=
  fun p => if p = 1 then Except.ok (List.replicate 100 ()) else Except.error ()

/-- Counterexample to C3: after a successful full page 1 and a failing page-2
fetch, `getCommits` returns `[]` — not the page-1 contents — because the
try/catch wraps the entire pagination loop and discards the accumulator. -/
theorem getCommits_page2_failure_cex :
    commitsFetchFail2 1 = Except.ok (List.replicate 100 ()) ∧
      commitsFetchFail2 2 = Except.error () ∧
      getCommits commitsFetchFail2 = [] ∧
      getCommits commitsFetchFail2 ≠ List.replicate 100 () :=
  ⟨rfl, rfl, rfl, by decide⟩

/-- C3 as amended: on a page-2 fetch failure after a full page 1 the
collector does not raise — it returns a value — but that value is the empty
sequence: the pages already accumulated are discarded, not returned. -/
theorem getCommits_page_failure_discards (fetch : Nat → Except Unit (List Unit))
    (l1 : List Unit) (h1 : fetch 1 = Except.ok l1) (hfull : ¬ l1.length < 100)
    (h2 : fetch 2 = Except.error ()) :
    getCommits fetch = [] := by
  have key : collectLoop fetch 100 3 1 [] = Except.error () := by
    rw [show (3 : Nat) = 2 + 1 from rfl, collectLoop_succ, h1]
    simp only [if_neg hfull]
    rw [show (2 : Nat) = 1 + 1 from rfl, collectLoop_succ]
    norm_num
    rw [h2]
  simp [getCommits, key]

/-- Witness for the amended C3 at the concrete failing upstream. -/
theorem getCommits_page_failure_discards_witness :
    getCommits commitsFetchFail2 = [] :=
  getCommits_page_failure_discards commitsFetchFail2 (List.replicate 100 ())
    rfl (by decide) rfl

/-- A listing page of 100 items of which 30 carry the `pull_request` marker. -/
def issuePageMixed : List IssueItem :=
  List.replicate 30 { isPullRequest := true } ++ List.replicate 70 { isPullRequest := false }

/-- An issues upstream whose page 1 is `issuePageMixed` and whose page 2 is
empty (end of data). -/
def issuesFetchMixed : Nat → Except Unit (List IssueItem) :=
  fun p => if p = 1 then Except.ok issuePageMixed else Except.ok []

/-- The count environment whose single page is `issuePageMixed` with no
pagination link. -/
def issueCountEnvMixed : IssueCountEnv :=
  { firstPage := Except.ok { data := issuePageMixed, linkLast := none }
    lastPageFetch := fun _ => Except.error () }

/-- The open-issues environment whose single page is `issuePageMixed`. -/
def openEnvMixed : OpenIssuesEnv :=
  { firstPage := Except.ok { data := issuePageMixed, linkLast := none }
    pageFetch := fun _ => Except.error () }

/-- Counterexample to C1: a page of 100 items with 30 pull-request markers
contributes all 100 items to the stored issues sequence (the 30 marked items
included) and 100 — not 70 — to the total-issue count. -/
theorem issues_include_pull_requests_cex :
    ((getIssues issuesFetchMixed).filter (fun i => i.isPullRequest)).length = 30 ∧
      (getIssues issuesFetchMixed).length = 100 ∧
      getAccurateIssueCount issueCountEnvMixed = 100 ∧
      countNonPR issuePageMixed = 70 := by
  refine ⟨by decide, by decide, by decide, by decide⟩

/-- C1 as amended: only the open-issues count excludes items carrying the
`pull_request` marker — on its unpaginated path it returns exactly the number
of unmarked page-1 items, and the mixed page of 100 items with 30 markers
contributes exactly 70 to it (the issues sequence and the total-issue count
keep the marked items, per the counterexample). -/
theorem openIssuesCount_excludes_pull_requests :
    (∀ (data : List IssueItem) (pf : Nat → Except Unit (List IssueItem)),
        getAccurateOpenIssuesCount
            { firstPage := Except.ok { data := data, linkLast := none }, pageFetch := pf }
          = (countNonPR data : Int)) ∧
      getAccurateOpenIssuesCount openEnvMixed = 70 :=
  ⟨fun _ _ => rfl, by decide⟩

/-- A commit-count environment whose every request fails. -/
def failedCommitEnv : CommitCountEnv :=
  { firstPage := Except.error (), lastPageFetch := fun _ => Except.error () }

/-- A contributor-count environment whose every request fails. -/
def failedContributorEnv : ContributorCountEnv :=
  { firstPage := Except.error (), lastPageFetch := fun _ => Except.error () }

/-- An issue-count environment whose every request fails. -/
def failedIssueEnv : IssueCountEnv :=
  { firstPage := Except.error (), lastPageFetch := fun _ => Except.error () }

/-- An open-issues environment whose every request fails. -/
def failedOpenEnv : OpenIssuesEnv :=
  { firstPage := Except.error (), pageFetch := fun _ => Except.error () }

/-- A totals environment in which every sub-request fails. -/
def failedTotalsEnv : TotalsEnv :=
  { repoMeta := Except.error ()
    commitEnv := failedCommitEnv
    contributorEnv := failedContributorEnv
    issueEnv := failedIssueEnv
    openEnv := failedOpenEnv }

/-- An open-issues upstream with one page of 5 plain open issues. -/
def openEnvFivePlain : OpenIssuesEnv :=
  { firstPage := Except.ok { data := List.replicate 5 { isPullRequest := false }, linkLast := none }
    pageFetch := fun _ => Except.error () }

/-- A totals environment where the total-issue request fails while the
open-issues request succeeds with 5 items. -/
def totalsEnvOpenGtTotal : TotalsEnv :=
  { failedTotalsEnv with openEnv := openEnvFivePlain }

/-- A 21-page all-issues listing (estimation branch of the total count). -/
def issueEnvBig : IssueCountEnv :=
  { firstPage := Except.ok
      { data := List.replicate 100 { isPullRequest := false }, linkLast := some 21 }
    lastPageFetch := fun _ => Except.error () }

/-- A 21-page open-issues listing (estimation branch of the open count). -/
def openEnvBig : OpenIssuesEnv :=
  { firstPage := Except.ok
      { data := List.replicate 100 { isPullRequest := false }, linkLast := some 21 }
    pageFetch := fun _ => Except.error () }

/-- A totals environment for a self-consistent repository of 2100 open
issues and no pull requests: both listings show 21 pages of 100. -/
def totalsEnvBig : TotalsEnv :=
  { failedTotalsEnv with issueEnv := issueEnvBig, openEnv := openEnvBig }

/-- Counterexample to C6: the totals computation can report
`openIssues > totalIssues`, both when the total-issue sub-request fails and
degrades to 0 while the open count succeeds (5 > 0), and on self-consistent
data when both counts take their estimation branches (21 pages of 100 open
issues estimate to openIssues = 1890 against totalIssues = 21 * 85 = 1785). -/
theorem openIssues_gt_totalIssues_cex :
    ((getRepositoryTotals totalsEnvOpenGtTotal).totalIssues = 0 ∧
        (getRepositoryTotals totalsEnvOpenGtTotal).openIssues = 5 ∧
        ¬ (getRepositoryTotals totalsEnvOpenGtTotal).openIssues ≤
            (getRepositoryTotals totalsEnvOpenGtTotal).totalIssues) ∧
      ((getRepositoryTotals totalsEnvBig).totalIssues = 1785 ∧
        (getRepositoryTotals totalsEnvBig).openIssues = 1890 ∧
        ¬ (getRepositoryTotals totalsEnvBig).openIssues ≤
            (getRepositoryTotals totalsEnvBig).totalIssues) := by
  refine ⟨⟨by decide, by decide, by decide⟩, ?_, ?_, ?_⟩
  · simp [getRepositoryTotals, getAccurateIssueCount, totalsEnvBig, issueEnvBig, failedTotalsEnv]
  · simp [getRepositoryTotals, getAccurateOpenIssuesCount, totalsEnvBig, openEnvBig,
      failedTotalsEnv]
    norm_num [round_eq]
  · simp [getRepositoryTotals, getAccurateIssueCount, getAccurateOpenIssuesCount,
      totalsEnvBig, issueEnvBig, openEnvBig, failedTotalsEnv]
    norm_num [round_eq]

/-- C6 as amended: the invariant `openIssues ≤ totalIssues` is not
guaranteed in general (see the counterexample), but it holds on the exact
unpaginated paths: when both issue listings answer with a single page and
every unmarked open item also appears in the all-issues listing, the open
count is at most the total count. -/
theorem openIssues_le_totalIssues_exact_path (env : TotalsEnv)
    (allData openData : List IssueItem)
    (h1 : env.issueEnv.firstPage = Except.ok { data := allData, linkLast := none })
    (h2 : env.openEnv.firstPage = Except.ok { data := openData, linkLast := none })
    (hsub : (openData.filter (fun i => !i.isPullRequest)).Sublist allData) :
    (getRepositoryTotals env).openIssues ≤ (getRepositoryTotals env).totalIssues := by
  simp only [getRepositoryTotals, getAccurateIssueCount, getAccurateOpenIssuesCount, h1, h2]
  exact_mod_cast hsub.length_le

/-- A single open, unmarked issue visible in both listings. -/
def oneOpenIssuePage : List IssueItem := [{ isPullRequest := false }]

/-- A totals environment whose two issue listings are the same single page. -/
def totalsEnvOneIssue : TotalsEnv :=
  { failedTotalsEnv with
    issueEnv := { firstPage := Except.ok { data := oneOpenIssuePage, linkLast := none }
                  lastPageFetch := fun _ => Except.error () }
    openEnv := { firstPage := Except.ok { data := oneOpenIssuePage, linkLast := none }
                 pageFetch := fun _ => Except.error () } }

/-- Witness for the amended C6. -/
theorem openIssues_le_totalIssues_exact_path_witness :
    (getRepositoryTotals totalsEnvOneIssue).openIssues ≤
      (getRepositoryTotals totalsEnvOneIssue).totalIssues :=
  openIssues_le_totalIssues_exact_path totalsEnvOneIssue oneOpenIssuePage oneOpenIssuePage
    rfl rfl (by decide)

/-- C9: the totals computation never throws (it is a total function into the
seven-field record), each count sub-request degrades to 0 on its own failure
without touching any other field, the three metadata fields default to 0
when the metadata request fails, and when every sub-request fails the result
is the all-zero record the source's fallback also names. -/
theorem getRepositoryTotals_degrades_independently (env : TotalsEnv) :
    getRepositoryTotals { env with commitEnv := failedCommitEnv }
        = { getRepositoryTotals env with totalCommits := 0 } ∧
      getRepositoryTotals { env with contributorEnv := failedContributorEnv }
        = { getRepositoryTotals env with totalContributors := 0 } ∧
      getRepositoryTotals { env with issueEnv := failedIssueEnv }
        = { getRepositoryTotals env with totalIssues := 0 } ∧
      getRepositoryTotals { env with openEnv := failedOpenEnv }
        = { getRepositoryTotals env with openIssues := 0 } ∧
      getRepositoryTotals { env with repoMeta := Except.error () }
        = { getRepositoryTotals env with stars := 0, forks := 0, watchers := 0 } ∧
      getRepositoryTotals failedTotalsEnv =
        { totalCommits := 0, totalContributors := 0, totalIssues := 0, openIssues := 0,
          stars := 0, forks := 0, watchers := 0 } := by
  refine ⟨?_, ?_, ?_, ?_, ?_, ?_⟩ <;>
    simp [getRepositoryTotals, failedCommitEnv, failedContributorEnv, failedIssueEnv,
      failedOpenEnv, failedTotalsEnv, getAccurateCommitCount, getAccurateContributorCount,
      getAccurateIssueCount, getAccurateOpenIssuesCount]

/-- C4: whenever the bare metadata request succeeds, the aggregation
completes with a full document no matter which of the five collectors and
the count estimators fail (they catch their own failures, so `Promise.all`
sees no rejection from them), and the outcome of every other sub-task leaves
each component unchanged: two runs that agree on one sub-task's upstream
agree on that component. -/
theorem getRepositoryDetails_no_short_circuit (env env2 : DetailsEnv) (m m2 : RepoMeta)
    (h : env.repoGet = Except.ok m) (h2 : env2.repoGet = Except.ok m2) :
    (∃ d, getRepositoryDetails env = Except.ok d) ∧
      (∀ d d2, getRepositoryDetails env = Except.ok d →
        getRepositoryDetails env2 = Except.ok d2 →
        (env.commitsFetch = env2.commitsFetch → d.commits = d2.commits) ∧
        (env.pullsFetch = env2.pullsFetch → d.pullRequests = d2.pullRequests) ∧
        (env.issuesFetch = env2.issuesFetch → d.issues = d2.issues) ∧
        (env.releasesFetch = env2.releasesFetch → d.releases = d2.releases) ∧
        (env.contributorsFetch = env2.contributorsFetch → d.contributors = d2.contributors) ∧
        (env.totalsEnv = env2.totalsEnv → d.totals = d2.totals)) := by
  constructor
  · unfold getRepositoryDetails
    rw [h]
    exact ⟨_, rfl⟩
  · intro d d2 hd hd2
    simp only [getRepositoryDetails, h, h2] at hd hd2
    injection hd with hd
    injection hd2 with hd2
    subst hd
    subst hd2
    refine ⟨?_, ?_, ?_, ?_, ?_, ?_⟩ <;> intro he <;> simp [he]

/-- A details environment whose metadata request succeeds while every other
sub-task's upstream fails. -/
def detailsEnvOkMeta : DetailsEnv :=
  { repoGet := Except.ok { stargazers_count := 1, forks_count := 2, watchers_count := 3 }
    commitsFetch := fun _ => Except.error ()
    pullsFetch := Except.error ()
    issuesFetch := fun _ => Except.error ()
    releasesFetch := Except.error ()
    contributorsFetch := fun _ => Except.error ()
    totalsEnv := failedTotalsEnv }

/-- Witness for C4 at a run in which every collector and estimator fails. -/
theorem getRepositoryDetails_no_short_circuit_witness :
    (∃ d, getRepositoryDetails detailsEnvOkMeta = Except.ok d) ∧
      (∀ d d2, getRepositoryDetails detailsEnvOkMeta = Except.ok d →
        getRepositoryDetails detailsEnvOkMeta = Except.ok d2 →
        (detailsEnvOkMeta.commitsFetch = detailsEnvOkMeta.commitsFetch →
          d.commits = d2.commits) ∧
        (detailsEnvOkMeta.pullsFetch = detailsEnvOkMeta.pullsFetch →
          d.pullRequests = d2.pullRequests) ∧
        (detailsEnvOkMeta.issuesFetch = detailsEnvOkMeta.issuesFetch →
          d.issues = d2.issues) ∧
        (detailsEnvOkMeta.releasesFetch = detailsEnvOkMeta.releasesFetch →
          d.releases = d2.releases) ∧
        (detailsEnvOkMeta.contributorsFetch = detailsEnvOkMeta.contributorsFetch →
          d.contributors = d2.contributors) ∧
        (detailsEnvOkMeta.totalsEnv = detailsEnvOkMeta.totalsEnv → d.totals = d2.totals)) :=
  getRepositoryDetails_no_short_circuit detailsEnvOkMeta detailsEnvOkMeta
    { stargazers_count := 1, forks_count := 2, watchers_count := 3 }
    { stargazers_count := 1, forks_count := 2, watchers_count := 3 } rfl rfl

/-- After writing a matching record into a store holding no record for the
repository, the lookup finds exactly the written record. -/
theorem getRA_mapSet_of_none (s : AnalysisStore) (rid k : String) (v : RepositoryAnalysis)
    (hnone : getRepositoryAnalysis s rid = none) (hv : v.repositoryId = some rid) :
    getRepositoryAnalysis (mapSet s k v) rid = some v := by
  induction s with
  | nil => simp [mapSet, getRepositoryAnalysis, hv]
  | cons hd rest ih =>
    obtain ⟨k0, a0⟩ := hd
    simp only [getRepositoryAnalysis] at hnone
    by_cases ha0 : a0.repositoryId = some rid
    · rw [if_pos ha0] at hnone; exact absurd hnone (by simp)
    · rw [if_neg ha0] at hnone
      simp only [mapSet]
      by_cases hk : k0 = k
      · rw [if_pos hk]
        simp [getRepositoryAnalysis, hv]
      · rw [if_neg hk]
        simp only [getRepositoryAnalysis]
        rw [if_neg ha0]
        exact ih hnone

/-- A successful lookup returns a record owned by the repository. -/
theorem getRA_some_matches (s : AnalysisStore) (rid : String) (e : RepositoryAnalysis)
    (h : getRepositoryAnalysis s rid = some e) : e.repositoryId = some rid := by
  induction s with
  | nil => simp [getRepositoryAnalysis] at h
  | cons hd rest ih =>
    obtain ⟨k0, a0⟩ := hd
    simp only [getRepositoryAnalysis] at h
    by_cases ha0 : a0.repositoryId = some rid
    · rw [if_pos ha0] at h
      injection h with h
      subst h
      exact ha0
    · rw [if_neg ha0] at h
      exact ih h

/-- A successful lookup returns a record stored under some key. -/
theorem getRA_some_mem (s : AnalysisStore) (rid : String) (e : RepositoryAnalysis)
    (h : getRepositoryAnalysis s rid = some e) : ∃ k, (k, e) ∈ s := by
  induction s with
  | nil => simp [getRepositoryAnalysis] at h
  | cons hd rest ih =>
    obtain ⟨k0, a0⟩ := hd
    simp only [getRepositoryAnalysis] at h
    by_cases ha0 : a0.repositoryId = some rid
    · rw [if_pos ha0] at h
      injection h with h
      subst h
      exact ⟨k0, by simp⟩
    · rw [if_neg ha0] at h
      obtain ⟨k, hk⟩ := ih h
      exact ⟨k, by simp [hk]⟩

/-- `Map.set` leaves the key sequence unchanged when the key is present and
appends it otherwise. -/
theorem storeKeys_mapSet (s : AnalysisStore) (k : String) (v : RepositoryAnalysis) :
    storeKeys (mapSet s k v) =
      if k ∈ storeKeys s then storeKeys s else storeKeys s ++ [k] := by
  induction s with
  | nil => simp [mapSet, storeKeys]
  | cons hd rest ih =>
    obtain ⟨k0, a0⟩ := hd
    simp only [mapSet]
    by_cases hk : k0 = k
    · subst hk
      simp [storeKeys]
    · rw [if_neg hk]
      simp only [storeKeys, List.map_cons] at ih ⊢
      rw [ih]
      have hne : ¬ k = k0 := fun h => hk h.symm
      by_cases hmem : k ∈ List.map Prod.fst rest
      · simp [hmem, hne]
      · simp [hmem, hne]

/-- `Map.set` with a value carrying the written key as its id preserves store
well-formedness. -/
theorem WFStore_mapSet (s : AnalysisStore) (k : String) (v : RepositoryAnalysis)
    (hWF : WFStore s) (hv : v.id = k) : WFStore (mapSet s k v) := by
  induction s with
  | nil =>
    constructor
    · simp [mapSet, storeKeys]
    · simp [mapSet, hv]
  | cons hd rest ih =>
    obtain ⟨k0, a0⟩ := hd
    obtain ⟨hnd, hids⟩ := hWF
    simp only [storeKeys, List.map_cons, List.nodup_cons] at hnd
    obtain ⟨hk0, hndrest⟩ := hnd
    have hWFrest : WFStore rest := ⟨hndrest, fun p hp => hids p (by simp [hp])⟩
    have ha0 : a0.id = k0 := hids (k0, a0) (by simp)
    simp only [mapSet]
    by_cases hk : k0 = k
    · rw [if_pos hk]
      subst hk
      constructor
      · simp only [storeKeys, List.map_cons, List.nodup_cons]
        exact ⟨hk0, hndrest⟩
      · intro p hp
        rcases List.mem_cons.mp hp with h | h
        · subst h; exact hv
        · exact hids p (by simp [h])
    · rw [if_neg hk]
      obtain ⟨hnd2, hids2⟩ := ih hWFrest
      constructor
      · simp only [storeKeys, List.map_cons, List.nodup_cons]
        refine ⟨?_, hnd2⟩
        rw [show List.map Prod.fst (mapSet rest k v) = storeKeys (mapSet rest k v) from rfl,
          storeKeys_mapSet]
        by_cases hmem : k ∈ storeKeys rest
        · simp only [if_pos hmem]
          exact hk0
        · simp only [if_neg hmem]
          simp only [List.mem_append, List.mem_singleton]
          rintro (h | h)
          · exact hk0 h
          · exact hk h
      · intro p hp
        rcases List.mem_cons.mp hp with h | h
        · subst h; exact ha0
        · exact hids2 p h

/-- Writing a matching record back under the found record's own key makes the
lookup return the written record (the entries in front of the found one do
not match, and in a well-formed store none of them holds the found key). -/
theorem getRA_mapSet_update (s : AnalysisStore) (rid : String)
    (e v : RepositoryAnalysis) (hWF : WFStore s)
    (hget : getRepositoryAnalysis s rid = some e) (hv : v.repositoryId = some rid) :
    getRepositoryAnalysis (mapSet s e.id v) rid = some v := by
  induction s with
  | nil => simp [getRepositoryAnalysis] at hget
  | cons hd rest ih =>
    obtain ⟨k0, a0⟩ := hd
    obtain ⟨hnd, hids⟩ := hWF
    simp only [storeKeys, List.map_cons, List.nodup_cons] at hnd
    obtain ⟨hk0, hndrest⟩ := hnd
    have hWFrest : WFStore rest := ⟨hndrest, fun p hp => hids p (by simp [hp])⟩
    have ha0 : a0.id = k0 := hids (k0, a0) (by simp)
    simp only [getRepositoryAnalysis] at hget
    by_cases ham : a0.repositoryId = some rid
    · rw [if_pos ham] at hget
      injection hget with hget
      subst hget
      simp only [mapSet, ha0, if_pos rfl]
      simp [getRepositoryAnalysis, hv]
    · rw [if_neg ham] at hget
      obtain ⟨ke, hke⟩ := getRA_some_mem rest rid e hget
      have heid : e.id = ke := hids (ke, e) (by simp [hke])
      have hkemem : ke ∈ storeKeys rest := by
        simp only [storeKeys, List.mem_map]
        exact ⟨(ke, e), hke, rfl⟩
      have hne : ¬ k0 = e.id := by
        rw [heid]
        intro h
        exact hk0 (h ▸ hkemem)
      simp only [mapSet, if_neg hne]
      simp only [getRepositoryAnalysis, if_neg ham]
      exact ih hWFrest hget

/-- One `put` of a full payload stores — and the lookup then returns — a
record carrying exactly the payload's six content fields and the fresh
timestamp, and keeps the store well formed. -/
theorem putAnalysis_spec (s : AnalysisStore) (rid : String) (p : AnalysisPayload)
    (fid : String) (t : Nat) (hWF : WFStore s) :
    ∃ a, (putAnalysis s rid p fid t).1 = some a ∧
      getRepositoryAnalysis (putAnalysis s rid p fid t).2 rid = some a ∧
      WFStore (putAnalysis s rid p fid t).2 ∧
      a.repositoryId = some rid ∧ a.commits = some p.commits ∧
      a.pullRequests = some p.pullRequests ∧ a.issues = some p.issues ∧
      a.releases = some p.releases ∧ a.contributors = some p.contributors ∧
      a.codeMetrics = some p.codeMetrics ∧ a.lastUpdated = t := by
  cases hget : getRepositoryAnalysis s rid with
  | none =>
    simp only [putAnalysis, hget, createRepositoryAnalysis, payloadInsert]
    refine ⟨_, rfl, ?_, ?_, rfl, rfl, rfl, rfl, rfl, rfl, rfl, rfl⟩
    · exact getRA_mapSet_of_none s rid fid _ hget rfl
    · exact WFStore_mapSet s fid _ hWF rfl
  | some e =>
    have hmatch := getRA_some_matches s rid e hget
    simp only [putAnalysis, hget, updateRepositoryAnalysis]
    refine ⟨mergeAnalysis e (payloadUpdates p) t, rfl, ?_, ?_, hmatch, rfl, rfl, rfl, rfl,
      rfl, rfl, rfl⟩
    · exact getRA_mapSet_update s rid e _ hWF hget hmatch
    · exact WFStore_mapSet s e.id _ hWF rfl

/-- C5: two successive `put`s of full payloads for the same repository id
leave the lookup returning a record whose six content fields are exactly the
second payload's (with the second write's timestamp) — the second write
overwrites every content field, and no array or metrics value of the first
payload survives. -/
theorem putAnalysis_twice_full_replace (s : AnalysisStore) (rid : String)
    (p1 p2 : AnalysisPayload) (fid1 fid2 : String) (t1 t2 : Nat) (hWF : WFStore s) :
    ∃ a,
      getRepositoryAnalysis
          (putAnalysis (putAnalysis s rid p1 fid1 t1).2 rid p2 fid2 t2).2 rid = some a ∧
        a.commits = some p2.commits ∧ a.pullRequests = some p2.pullRequests ∧
        a.issues = some p2.issues ∧ a.releases = some p2.releases ∧
        a.contributors = some p2.contributors ∧ a.codeMetrics = some p2.codeMetrics ∧
        a.lastUpdated = t2 := by
  obtain ⟨a1, -, -, hWF1, -, -, -, -, -, -, -, -⟩ := putAnalysis_spec s rid p1 fid1 t1 hWF
  obtain ⟨a2, -, hget2, -, -, hc, hpr, hi, hr, hco, hcm, ht⟩ :=
    putAnalysis_spec (putAnalysis s rid p1 fid1 t1).2 rid p2 fid2 t2 hWF1
  exact ⟨a2, hget2, hc, hpr, hi, hr, hco, hcm, ht⟩

/-- A first payload, all fields distinct from `payloadB`. -/
def payloadA : AnalysisPayload :=
  { commits := [1], pullRequests := [2], issues := [3], releases := [4],
    contributors := [5],
    codeMetrics := { totalCommits := 1, totalPRs := 1, totalIssues := 1,
                     totalReleases := 1, totalContributors := 1, openIssues := 1 } }

/-- A second payload, sharing no field value with `payloadA`. -/
def payloadB : AnalysisPayload :=
  { commits := [9], pullRequests := [8], issues := [7], releases := [6],
    contributors := [0],
    codeMetrics := { totalCommits := 2, totalPRs := 2, totalIssues := 2,
                     totalReleases := 2, totalContributors := 2, openIssues := 2 } }

/-- Witness for C5 at an empty store and two distinct payloads. -/
theorem putAnalysis_twice_full_replace_witness :
    ∃ a,
      getRepositoryAnalysis
          (putAnalysis (putAnalysis [] "r1" payloadA "id1" 1).2 "r1" payloadB "id2" 2).2
          "r1" = some a ∧
        a.commits = some payloadB.commits ∧ a.pullRequests = some payloadB.pullRequests ∧
        a.issues = some payloadB.issues ∧ a.releases = some payloadB.releases ∧
        a.contributors = some payloadB.contributors ∧
        a.codeMetrics = some payloadB.codeMetrics ∧ a.lastUpdated = 2 :=
  putAnalysis_twice_full_replace [] "r1" payloadA payloadB "id1" "id2" 1 2 (by decide)

/-- C10: updating a repository with no stored record returns `undefined` and
leaves the store untouched; updating an existing record (with an update
object not naming `id`, as every caller does) returns the merged record, the
merged record keeps the stored record's id, and the store's key sequence is
unchanged — an update never adds or removes an entry. -/
theorem updateRepositoryAnalysis_frame (s : AnalysisStore) (rid : String)
    (u : PartialRepositoryAnalysis) (t : Nat) (hWF : WFStore s) :
    (getRepositoryAnalysis s rid = none → updateRepositoryAnalysis s rid u t = (none, s)) ∧
      (∀ e, getRepositoryAnalysis s rid = some e → u.id = none →
        (updateRepositoryAnalysis s rid u t).1 = some (mergeAnalysis e u t) ∧
          (mergeAnalysis e u t).id = e.id ∧
          storeKeys (updateRepositoryAnalysis s rid u t).2 = storeKeys s) := by
  constructor
  · intro h
    simp [updateRepositoryAnalysis, h]
  · intro e hget hid
    refine ⟨by simp [updateRepositoryAnalysis, hget], by simp [mergeAnalysis, hid], ?_⟩
    simp only [updateRepositoryAnalysis, hget]
    rw [storeKeys_mapSet]
    obtain ⟨ke, hke⟩ := getRA_some_mem s rid e hget
    have heid : e.id = ke := hWF.2 (ke, e) hke
    have hmem : e.id ∈ storeKeys s := by
      rw [heid]
      simp only [storeKeys, List.mem_map]
      exact ⟨(ke, e), hke, rfl⟩
    rw [if_pos hmem]

/-- A stored record for repository "r1" under key "k1". -/
def recordR1 : RepositoryAnalysis :=
  { id := "k1", repositoryId := some "r1", commits := some [1], pullRequests := none,
    issues := none, releases := none, contributors := none, codeMetrics := none,
    lastUpdated := 0 }

/-- A one-record store. -/
def storeOne : AnalysisStore := [("k1", recordR1)]

/-- An update object touching only the commits array. -/
def updateU : PartialRepositoryAnalysis :=
  { id := none, repositoryId := none, commits := some (some [7]), pullRequests := none,
    issues := none, releases := none, contributors := none, codeMetrics := none,
    lastUpdated := none }

/-- Witness for C10 at the one-record store. -/
theorem updateRepositoryAnalysis_frame_witness :
    (getRepositoryAnalysis storeOne "r0" = none →
        updateRepositoryAnalysis storeOne "r0" updateU 5 = (none, storeOne)) ∧
      (∀ e, getRepositoryAnalysis storeOne "r0" = some e → updateU.id = none →
        (updateRepositoryAnalysis storeOne "r0" updateU 5).1 = some (mergeAnalysis e updateU 5) ∧
          (mergeAnalysis e updateU 5).id = e.id ∧
          storeKeys (updateRepositoryAnalysis storeOne "r0" updateU 5).2 = storeKeys storeOne) :=
  updateRepositoryAnalysis_frame storeOne "r0" updateU 5 (by decide)

/-- C8: the select flow is insensitive to the graph-mirror outcome — the
response and the store state are identical whether the mirror write (routed
through `createRepositoryGraph`, which rethrows its caught error) succeeds
or throws — and even under a throwing mirror the flow still returns the
fresh analysis, which the store's lookup also returns. -/
theorem selectRepository_sink_isolated (s : AnalysisStore) (rid : String)
    (p : AnalysisPayload) (fid : String) (t : Nat) (hWF : WFStore s) :
    (∀ w : Except Unit Unit,
        selectRepository s rid p fid t w = selectRepository s rid p fid t (Except.ok ())) ∧
      ∃ a, (selectRepository s rid p fid t (Except.error ())).1 = some a ∧
        getRepositoryAnalysis (selectRepository s rid p fid t (Except.error ())).2 rid
          = some a := by
  constructor
  · intro w
    cases w <;> rfl
  · obtain ⟨a, h1, h2, -⟩ := putAnalysis_spec s rid p fid t hWF
    exact ⟨a, h1, h2⟩

/-- Witness for C8 at an empty store and a throwing mirror. -/
theorem selectRepository_sink_isolated_witness :
    (∀ w : Except Unit Unit,
        selectRepository [] "r1" payloadA "id9" 3 w
          = selectRepository [] "r1" payloadA "id9" 3 (Except.ok ())) ∧
      ∃ a, (selectRepository [] "r1" payloadA "id9" 3 (Except.error ())).1 = some a ∧
        getRepositoryAnalysis
            (selectRepository [] "r1" payloadA "id9" 3 (Except.error ())).2 "r1"
          = some a :=
  selectRepository_sink_isolated [] "r1" payloadA "id9" 3 (by decide)
